import Mathlib

/-!
Verification of the PaxfulApi SDK facade (src/PaxfulApi.ts) against its
natural-language specification.

The repository ships only `PaxfulApi.ts` under src; the collaborator
modules it imports (`commands/Invoke` with `containsBinary` and
`RequestBuilder`, and the authenticated executor) are modelled from the
specification and marked as such in their doc comments.  Everything in
the `PaxfulApi` namespace is translated directly from `PaxfulApi.ts`.
-/

namespace PaxfulSdk

/-- A JSON-like payload value.  `binary` stands for a binary blob/stream
(a `Readable`/`Blob` field value in the TypeScript payload); `obj` is a
nested object, used to check that binary detection does not recurse. -/
inductive JValue where
  | str (s : String)
  | num (n : Int)
  | binary
  | obj (fields : List (String × JValue))

/-- The `InvokeBody` payload mapping: ordered field names to values. -/
abbrev InvokeBody := List (String × JValue)

/-- Whether a single payload value is a binary blob/stream. -/
def isBinaryValue : JValue → Bool
  | JValue.binary => true
  | _ => false

/-- Modelled from the spec: `containsBinary(payload)` from
`commands/Invoke` (not under src): a pure predicate over a payload
mapping, true iff any top-level value is a binary blob/stream, with no
recursion into nested objects. -/
def containsBinary (payload : InvokeBody) : Bool :=
  payload.any (fun kv => isBinaryValue kv.snd)

/-- `url.endsWith(suffix)` from the source, embedded over the character
list of the string so that proofs can evaluate it. -/
def strEndsWith (s pat : String) : Bool :=
  pat.data.isSuffixOf s.data

/-- HTTP method of a request. -/
inductive Method where
  | GET
  | POST
  | PUT
  | PATCH
  | DELETE
  deriving Repr, DecidableEq

/-- Response deserialization policy. -/
inductive AcceptKind where
  | json
  | binary
  deriving Repr, DecidableEq

/-- Body encoding strategy of a request. -/
inductive BodyKind where
  | none
  | json
  | form
  | multipart
  deriving Repr, DecidableEq

/-- Modelled from the spec: the `RequestSpec` state accumulated by the
`RequestBuilder` of `commands/Invoke` (not under src): url, method,
accept kind, body encoding, body and url parameters. -/
structure RequestSpec where
  url : String
  method : Method
  acceptKind : AcceptKind
  bodyKind : BodyKind
  body : Option JValue
  urlParams : InvokeBody

/-- Modelled from the spec: `new RequestBuilder(url)` (not under src)
starts from a fresh spec with no body and no url parameters. -/
def RequestBuilder.new (url : String) : RequestSpec :=
  { url := url
    method := Method.GET
    acceptKind := AcceptKind.json
    bodyKind := BodyKind.none
    body := Option.none
    urlParams := [] }

/-- Modelled from the spec: `withMethod(m)` sets the method. -/
def withMethod (r : RequestSpec) (m : Method) : RequestSpec :=
  { r with method := m }

/-- Modelled from the spec: `acceptJson()` selects JSON response parsing. -/
def acceptJson (r : RequestSpec) : RequestSpec :=
  { r with acceptKind := AcceptKind.json }

/-- Modelled from the spec: `acceptBinary()` selects binary response parsing. -/
def acceptBinary (r : RequestSpec) : RequestSpec :=
  { r with acceptKind := AcceptKind.binary }

/-- Modelled from the spec: `withUrlParams(map)` sets the url parameters. -/
def withUrlParams (r : RequestSpec) (params : InvokeBody) : RequestSpec :=
  { r with urlParams := params }

/-- Modelled from the spec: `withJsonData(obj)` selects JSON body encoding
with the given (optional) json value as body. -/
def withJsonData (r : RequestSpec) (json : Option JValue) : RequestSpec :=
  { r with bodyKind := BodyKind.json, body := json }

/-- Modelled from the spec: `withFormData(map)` selects URL-form body
encoding carrying the payload mapping. -/
def withFormData (r : RequestSpec) (payload : InvokeBody) : RequestSpec :=
  { r with bodyKind := BodyKind.form, body := some (JValue.obj payload) }

/-- Modelled from the spec: `withMultipartFormData(map)` selects multipart
body encoding carrying the payload mapping. -/
def withMultipartFormData (r : RequestSpec) (payload : InvokeBody) : RequestSpec :=
  { r with bodyKind := BodyKind.multipart, body := some (JValue.obj payload) }

namespace PaxfulApi

/-- `PaxfulApi.upload` (PaxfulApi.ts lines 94-101): builds a request at
the data host with JSON response parsing, the given method (default
`POST` at the call sites of `invoke`) and a multipart form-data body,
for the authenticated executor. -/
def upload (dataHost url : String) (payload : InvokeBody)
    (method : Method) : RequestSpec :=
  withMultipartFormData
    (withMethod (acceptJson (RequestBuilder.new (dataHost ++ url))) method)
    payload

/-- `PaxfulApi.invoke` (PaxfulApi.ts lines 65-84): if a payload is given
and contains a binary value, delegate to `upload`; otherwise build a
JSON-accepting `POST` request, attach the payload as form data when
present, and switch the method to `GET` when the url ends with
`currency/btc`. -/
def invoke (dataHost url : String) (payload : Option InvokeBody) : RequestSpec :=
  match payload with
  | some p =>
    if containsBinary p then
      upload dataHost url p Method.POST
    else
      let requestBuilder :=
        withMethod (acceptJson (RequestBuilder.new (dataHost ++ url))) Method.POST
      let requestBuilder := withFormData requestBuilder p
      if strEndsWith url "currency/btc" then
        withMethod requestBuilder Method.GET
      else
        requestBuilder
  | Option.none =>
    let requestBuilder :=
      withMethod (acceptJson (RequestBuilder.new (dataHost ++ url))) Method.POST
    if strEndsWith url "currency/btc" then
      withMethod requestBuilder Method.GET
    else
      requestBuilder

/-- `PaxfulApi.download` (PaxfulApi.ts lines 110-116): binary response
parsing, given method (default `GET`), no body. -/
def download (dataHost url : String) (method : Method) : RequestSpec :=
  withMethod (acceptBinary (RequestBuilder.new (dataHost ++ url))) method

/-- `PaxfulApi.get` (PaxfulApi.ts lines 125-132): `GET` with url
parameters and JSON response parsing. -/
def get (dataHost url : String) (params : InvokeBody) : RequestSpec :=
  withUrlParams (withMethod (acceptJson (RequestBuilder.new (dataHost ++ url))) Method.GET)
    params

/-- `PaxfulApi.invokeJsonMethod` (PaxfulApi.ts lines 178-185): JSON
response parsing, given method, optional json body. -/
def invokeJsonMethod (dataHost url : String) (method : Method)
    (json : Option JValue) : RequestSpec :=
  withJsonData (withMethod (acceptJson (RequestBuilder.new (dataHost ++ url))) method) json

/-- `PaxfulApi.post` (PaxfulApi.ts lines 141-143). -/
def post (dataHost url : String) (json : Option JValue) : RequestSpec :=
  invokeJsonMethod dataHost url Method.POST json

/-- `PaxfulApi.delete` (PaxfulApi.ts lines 152-154). -/
def delete (dataHost url : String) (json : Option JValue) : RequestSpec :=
  invokeJsonMethod dataHost url Method.DELETE json

/-- `PaxfulApi.put` (PaxfulApi.ts lines 163-165). -/
def put (dataHost url : String) (json : Option JValue) : RequestSpec :=
  invokeJsonMethod dataHost url Method.PUT json

/-- `PaxfulApi.patch` (PaxfulApi.ts lines 174-176). -/
def patch (dataHost url : String) (json : Option JValue) : RequestSpec :=
  invokeJsonMethod dataHost url Method.PATCH json

end PaxfulApi

/-- The `Credentials` record of the data model: access token, optional
refresh token, expiry instant, token type and granted scopes. -/
structure Credentials where
  accessToken : String
  refreshToken : Option String
  expiresAt : Nat
  tokenType : String
  scope : List String
  deriving Repr, DecidableEq

/-- The credential storage collaborator, modelled by the log of records
passed to `saveCredentials` (newest last). -/
abbrev CredentialStorage := List Credentials

/-- `CredentialStorage.saveCredentials`: record one saved credentials
value. -/
def saveCredentials (storage : CredentialStorage) (c : Credentials) : CredentialStorage :=
  storage ++ [c]

/-- The `ApiConfiguration` record.  `scope` is `Option` because the
TypeScript field may be `undefined` as well as an empty array. -/
structure ApiConfiguration where
  clientId : String
  clientSecret : String
  redirectUri : String
  scope : Option (List String)
  deriving Repr, DecidableEq

/-- The process environment variables read and written by
`validateAndSetDefaultParameters`: `PAXFUL_OAUTH_HOST` and
`PAXFUL_DATA_HOST`, each possibly unset. -/
structure HostEnv where
  oauthHost : Option String
  dataHost : Option String
  deriving Repr, DecidableEq

namespace PaxfulApi

/-- `PaxfulApi.validateAndSetDefaultParameters` (PaxfulApi.ts lines
187-203), run by the constructor: default the scope to
`["profile", "email"]` when it is undefined or empty, and default each
host environment variable to the production endpoint when it is unset
or the empty string (`env ?? default` for the OAuth host, the combined
emptiness test for the data host), leaving non-empty values unchanged. -/
def validateAndSetDefaultParameters (configuration : ApiConfiguration)
    (env : HostEnv) : ApiConfiguration × HostEnv :=
  let defaultOAuthHost := "https://accounts.paxful.com"
  let defaultDataHost := "https://api.paxful.com"
  let configuration :=
    match configuration.scope with
    | Option.none => { configuration with scope := some ["profile", "email"] }
    | some s =>
      if s.length = 0 then { configuration with scope := some ["profile", "email"] }
      else configuration
  let oauthHost :=
    match env.oauthHost with
    | some h => if h = "" then defaultOAuthHost else h
    | Option.none => defaultOAuthHost
  let dataHost :=
    match env.dataHost with
    | some h => if h = "" then defaultDataHost else h
    | Option.none => defaultDataHost
  (configuration, { oauthHost := some oauthHost, dataHost := some dataHost })

/-- `PaxfulApi.saveToken` (PaxfulApi.ts lines 205-210): awaits the
credentials promise, then, when a credential storage was supplied at
construction, saves the awaited record to it, and returns the promise
value.  A rejected promise (acquisition failure) propagates from the
`await` before `saveCredentials` runs. -/
def saveToken (storage : Option CredentialStorage)
    (credentialsResult : Except String Credentials) :
    Option CredentialStorage × Except String Credentials :=
  match credentialsResult with
  | Except.error e => (storage, Except.error e)
  | Except.ok c =>
    match storage with
    | some s => (some (saveCredentials s c), Except.ok c)
    | Option.none => (Option.none, Except.ok c)

/-- `PaxfulApi.impersonatedCredentials` (PaxfulApi.ts lines 36-40): the
token acquirer is the external `retrieveImpersonatedCredentials`
command, modelled as a function from the authorization code to its
result; its result is passed through `saveToken`. -/
def impersonatedCredentials (retrieveImpersonated : String → Except String Credentials)
    (storage : Option CredentialStorage) (code : String) :
    Option CredentialStorage × Except String Credentials :=
  saveToken storage (retrieveImpersonated code)

/-- `PaxfulApi.myCredentials` (PaxfulApi.ts lines 45-49): the token
acquirer is the external `retrievePersonalCredentials` command, modelled
by its result; the result is passed through `saveToken`. -/
def myCredentials (retrievePersonal : Except String Credentials)
    (storage : Option CredentialStorage) :
    Option CredentialStorage × Except String Credentials :=
  saveToken storage retrievePersonal

/-- `PaxfulApi.getProfile` (PaxfulApi.ts lines 54-57): with no credential
storage, throw `Error("No credentials storage defined.")` before any
call to the profile command; otherwise delegate to the external
`getProfile` command with the storage and the configuration, modelled by
returning the pair handed to that command. -/
def getProfile (storage : Option CredentialStorage) (config : ApiConfiguration) :
    Except String (CredentialStorage × ApiConfiguration) :=
  match storage with
  | Option.none => Except.error "No credentials storage defined."
  | some s => Except.ok (s, config)

end PaxfulApi

/-- Errors of the authenticated executor's taxonomy that this model can
produce. -/
inductive ExecError where
  | notAuthenticated
  | authRefresh
  | authorizationDenied
  deriving Repr, DecidableEq

/-- Observable outcome of one `execute` call: the final result (HTTP
status of the successful response, body parsing abstracted away) plus
how many dispatches and refreshes were performed. -/
structure ExecResult where
  outcome : Except ExecError Nat
  dispatchCount : Nat
  refreshCount : Nat
  deriving Repr

/-- Whether an HTTP status is an authorization failure (401/403). -/
def isAuthFailure (status : Nat) : Bool :=
  status = 401 || status = 403

/-- Modelled from the spec: steps 3-4 of the authenticated executor
(`executeRequestAuthorized`, not under src).  Dispatch once; on an
authorization-failure status, when a refresh was already attempted in
this call the failure is terminal (`authorizationDenied`), otherwise
refresh unconditionally and retry the dispatch exactly once, a second
authorization failure being terminal. -/
def dispatchWithRetry (refreshAttempted : Bool) (c : Credentials)
    (refresh : Credentials → Except Unit Credentials)
    (dispatch : Nat → Nat) : ExecResult :=
  let status := dispatch 0
  if isAuthFailure status then
    if refreshAttempted then
      { outcome := Except.error ExecError.authorizationDenied
        dispatchCount := 1, refreshCount := 0 }
    else
      match refresh c with
      | Except.error _ =>
        { outcome := Except.error ExecError.authRefresh
          dispatchCount := 1, refreshCount := 1 }
      | Except.ok _ =>
        let retryStatus := dispatch 1
        if isAuthFailure retryStatus then
          { outcome := Except.error ExecError.authorizationDenied
            dispatchCount := 2, refreshCount := 1 }
        else
          { outcome := Except.ok retryStatus
            dispatchCount := 2, refreshCount := 1 }
  else
    { outcome := Except.ok status, dispatchCount := 1, refreshCount := 0 }

/-- Modelled from the spec: the authenticated executor
(`executeRequestAuthorized`, not under src), steps 1-4 of the spec
algorithm.  `creds` are the resolved stored credentials, `now` the clock
reading, `refresh` the token acquirer's refresh exchange and
`dispatch n` the host's status for the n-th dispatch of this call.
Absent credentials fail with `notAuthenticated`; expired credentials
are refreshed before the first dispatch (a refresh failure propagating
immediately); then the request is dispatched with the retry policy of
`dispatchWithRetry`. -/
def execute (creds : Option Credentials) (now : Nat)
    (refresh : Credentials → Except Unit Credentials)
    (dispatch : Nat → Nat) : ExecResult :=
  match creds with
  | Option.none =>
    { outcome := Except.error ExecError.notAuthenticated
      dispatchCount := 0, refreshCount := 0 }
  | some c =>
    if c.expiresAt ≤ now then
      match refresh c with
      | Except.error _ =>
        { outcome := Except.error ExecError.authRefresh
          dispatchCount := 0, refreshCount := 1 }
      | Except.ok c2 =>
        let r := dispatchWithRetry true c2 refresh dispatch
        { r with refreshCount := r.refreshCount + 1 }
    else
      dispatchWithRetry false c refresh dispatch

/-! Theorems. -/

/-- A payload value is binary exactly when it is the `binary` constructor. -/
theorem isBinaryValue_eq_true_iff (v : JValue) :
    isBinaryValue v = true ↔ v = JValue.binary := by
  cases v <;> simp [isBinaryValue]

/-- C1: for every url and every payload on which `containsBinary` returns
true, `invoke` delegates to `upload`, whose built request uses multipart
form-data body encoding, with no caller intervention. -/
theorem invoke_binary_routes_to_multipart (dataHost url : String)
    (payload : InvokeBody) (h : containsBinary payload = true) :
    PaxfulApi.invoke dataHost url (some payload) =
      PaxfulApi.upload dataHost url payload Method.POST ∧
    (PaxfulApi.upload dataHost url payload Method.POST).bodyKind =
      BodyKind.multipart := by
  constructor
  · simp [PaxfulApi.invoke, h]
  · rfl

theorem invoke_binary_routes_to_multipart_witness :
    containsBinary [("file", JValue.binary)] = true ∧
    (PaxfulApi.invoke "https://api.paxful.com" "/file-upload"
        (some [("file", JValue.binary)])).bodyKind = BodyKind.multipart := by
  refine ⟨rfl, ?_⟩
  have h := invoke_binary_routes_to_multipart "https://api.paxful.com" "/file-upload"
    [("file", JValue.binary)] rfl
  rw [h.1]
  exact h.2

/-- C2 counterexample: at the url `/paxful/v1/currency/btc` with the
non-empty binary-free payload `{code: "usd"}`, `invoke` builds a `GET`
request with a URL-form body, not the `POST`-with-JSON-body the claim
states. -/
theorem invoke_nonbinary_counterexample :
    ¬ ((PaxfulApi.invoke "https://api.paxful.com" "/paxful/v1/currency/btc"
          (some [("code", JValue.str "usd")])).method = Method.POST ∧
       (PaxfulApi.invoke "https://api.paxful.com" "/paxful/v1/currency/btc"
          (some [("code", JValue.str "usd")])).bodyKind = BodyKind.json) := by
  intro h
  exact absurd h.1 (by decide)

/-- C2 amended: for every url and every non-empty payload on which
`containsBinary` returns false, `invoke` builds a request with the
payload encoded as a URL-form body (`bodyKind = form`) and JSON response
parsing; the method is `POST`, except that a url ending in
`currency/btc` uses `GET`. -/
theorem invoke_nonbinary_form_request (dataHost url : String)
    (payload : InvokeBody) (_hne : payload ≠ [])
    (h : containsBinary payload = false) :
    (PaxfulApi.invoke dataHost url (some payload)).bodyKind = BodyKind.form ∧
    (PaxfulApi.invoke dataHost url (some payload)).body =
      some (JValue.obj payload) ∧
    (PaxfulApi.invoke dataHost url (some payload)).acceptKind = AcceptKind.json ∧
    (PaxfulApi.invoke dataHost url (some payload)).method =
      (if strEndsWith url "currency/btc" then Method.GET else Method.POST) := by
  simp only [PaxfulApi.invoke, h, Bool.false_eq_true, if_false]
  by_cases hb : strEndsWith url "currency/btc" <;>
    simp [hb, withFormData, withMethod, acceptJson, RequestBuilder.new]

theorem invoke_nonbinary_form_request_witness :
    (PaxfulApi.invoke "https://api.paxful.com" "/paxful/v1/offer/list"
        (some [("type", JValue.str "buy")])).bodyKind = BodyKind.form ∧
    (PaxfulApi.invoke "https://api.paxful.com" "/paxful/v1/offer/list"
        (some [("type", JValue.str "buy")])).method = Method.POST := by
  have h := invoke_nonbinary_form_request "https://api.paxful.com"
    "/paxful/v1/offer/list" [("type", JValue.str "buy")]
    (List.cons_ne_nil _ _) rfl
  refine ⟨h.1, ?_⟩
  rw [h.2.2.2]
  decide

/-- C4: `containsBinary` is true iff some top-level value of the payload
is binary; it is false on the empty mapping, on all-string and on
all-number mappings, and it does not recurse: a mapping whose top-level
values are all nested objects is binary-free even when those objects
contain binary values. -/
theorem containsBinary_characterisation :
    (∀ p : InvokeBody, containsBinary p = true ↔
      ∃ kv ∈ p, kv.snd = JValue.binary) ∧
    containsBinary [] = false ∧
    (∀ p : InvokeBody, (∀ kv ∈ p, ∃ s, kv.snd = JValue.str s) →
      containsBinary p = false) ∧
    (∀ p : InvokeBody, (∀ kv ∈ p, ∃ n, kv.snd = JValue.num n) →
      containsBinary p = false) ∧
    (∀ p : InvokeBody, (∀ kv ∈ p, ∃ fields, kv.snd = JValue.obj fields) →
      containsBinary p = false) := by
  have key : ∀ p : InvokeBody, containsBinary p = true ↔
      ∃ kv ∈ p, kv.snd = JValue.binary := by
    intro p
    simp only [containsBinary, List.any_eq_true]
    constructor
    · rintro ⟨kv, hmem, hbin⟩
      exact ⟨kv, hmem, (isBinaryValue_eq_true_iff kv.snd).1 hbin⟩
    · rintro ⟨kv, hmem, hbin⟩
      exact ⟨kv, hmem, (isBinaryValue_eq_true_iff kv.snd).2 hbin⟩
  refine ⟨key, rfl, ?_, ?_, ?_⟩ <;> intro p hall <;>
    rw [Bool.eq_false_iff] <;> intro htrue <;>
    obtain ⟨kv, hmem, hbin⟩ := (key p).1 htrue <;>
    obtain ⟨x, hx⟩ := hall kv hmem <;> rw [hbin] at hx <;> cases hx

theorem containsBinary_characterisation_witness :
    containsBinary [("a", JValue.str "x"), ("b", JValue.str "y")] = false ∧
    containsBinary [("nested", JValue.obj [("f", JValue.binary)])] = false := by
  constructor
  · exact containsBinary_characterisation.2.2.1
      [("a", JValue.str "x"), ("b", JValue.str "y")]
      (by intro kv hkv
          rcases List.mem_cons.1 hkv with rfl | hkv2
          · exact ⟨"x", rfl⟩
          · obtain rfl := List.mem_singleton.1 hkv2
            exact ⟨"y", rfl⟩)
  · exact containsBinary_characterisation.2.2.2.2
      [("nested", JValue.obj [("f", JValue.binary)])]
      (by intro kv hkv
          obtain rfl := List.mem_singleton.1 hkv
          exact ⟨[("f", JValue.binary)], rfl⟩)

/-- C3: when the stored credentials are not expired (so no refresh has
happened yet in this call), the first dispatch returns an
authorization-failure status and the refresh exchange succeeds, then
`execute` performs exactly one refresh and exactly one retry dispatch
(two dispatches in total, so never a third); and when the retry also
returns an authorization-failure status, the call fails with
`AuthorizationDeniedError`. -/
theorem execute_single_refresh_retry (c : Credentials) (now : Nat)
    (refresh : Credentials → Except Unit Credentials) (dispatch : Nat → Nat)
    (hvalid : now < c.expiresAt)
    (hfail : isAuthFailure (dispatch 0) = true)
    (hrefresh : ∃ c2, refresh c = Except.ok c2) :
    (execute (some c) now refresh dispatch).refreshCount = 1 ∧
    (execute (some c) now refresh dispatch).dispatchCount = 2 ∧
    (isAuthFailure (dispatch 1) = true →
      (execute (some c) now refresh dispatch).outcome =
        Except.error ExecError.authorizationDenied) := by
  obtain ⟨c2, hc2⟩ := hrefresh
  have hnot : ¬ c.expiresAt ≤ now := by omega
  by_cases hretry : isAuthFailure (dispatch 1) = true <;>
    simp [execute, hnot, dispatchWithRetry, hfail, hc2, hretry]

theorem execute_single_refresh_retry_witness :
    (execute
        (some { accessToken := "tok", refreshToken := some "ref",
                expiresAt := 100, tokenType := "Bearer",
                scope := ["profile"] })
        0 (fun c => Except.ok c) (fun _ => 401)).refreshCount = 1 ∧
    (execute
        (some { accessToken := "tok", refreshToken := some "ref",
                expiresAt := 100, tokenType := "Bearer",
                scope := ["profile"] })
        0 (fun c => Except.ok c) (fun _ => 401)).dispatchCount = 2 ∧
    (execute
        (some { accessToken := "tok", refreshToken := some "ref",
                expiresAt := 100, tokenType := "Bearer",
                scope := ["profile"] })
        0 (fun c => Except.ok c) (fun _ => 401)).outcome =
      Except.error ExecError.authorizationDenied := by
  have h := execute_single_refresh_retry
    { accessToken := "tok", refreshToken := some "ref", expiresAt := 100,
      tokenType := "Bearer", scope := ["profile"] }
    0 (fun c => Except.ok c) (fun _ => 401)
    (by decide) (by decide) ⟨_, rfl⟩
  exact ⟨h.1, h.2.1, h.2.2 (by decide)⟩

/-- C5: when the token acquirer succeeds, `impersonatedCredentials` and
`myCredentials` save exactly the acquired record to the supplied
credential storage and return that same record. -/
theorem credentials_saved_and_returned
    (retrieveImpersonated : String → Except String Credentials)
    (retrievePersonal : Except String Credentials)
    (s : CredentialStorage) (code : String) (c1 c2 : Credentials)
    (h1 : retrieveImpersonated code = Except.ok c1)
    (h2 : retrievePersonal = Except.ok c2) :
    PaxfulApi.impersonatedCredentials retrieveImpersonated (some s) code =
      (some (saveCredentials s c1), Except.ok c1) ∧
    PaxfulApi.myCredentials retrievePersonal (some s) =
      (some (saveCredentials s c2), Except.ok c2) := by
  simp [PaxfulApi.impersonatedCredentials, PaxfulApi.myCredentials,
    PaxfulApi.saveToken, h1, h2]

theorem credentials_saved_and_returned_witness :
    PaxfulApi.impersonatedCredentials
      (fun _ => Except.ok { accessToken := "a1", refreshToken := Option.none,
                            expiresAt := 7, tokenType := "Bearer", scope := [] })
      (some []) "authcode" =
      (some [{ accessToken := "a1", refreshToken := Option.none,
               expiresAt := 7, tokenType := "Bearer", scope := [] }],
       Except.ok { accessToken := "a1", refreshToken := Option.none,
                   expiresAt := 7, tokenType := "Bearer", scope := [] }) := by
  have h := credentials_saved_and_returned
    (fun _ => Except.ok { accessToken := "a1", refreshToken := Option.none,
                          expiresAt := 7, tokenType := "Bearer", scope := [] })
    (Except.ok { accessToken := "a1", refreshToken := Option.none,
                 expiresAt := 7, tokenType := "Bearer", scope := [] })
    [] "authcode" _ _ rfl rfl
  exact h.1

/-- C6: after the constructor runs `validateAndSetDefaultParameters`, an
absent or empty scope becomes `["profile", "email"]`; an unset or empty
OAuth host (resp. data host) environment variable becomes
`https://accounts.paxful.com` (resp. `https://api.paxful.com`); and a
host variable already set to a non-empty value is left unchanged. -/
theorem constructor_defaults (configuration : ApiConfiguration) (env : HostEnv) :
    ((configuration.scope = Option.none ∨ configuration.scope = some []) →
      (PaxfulApi.validateAndSetDefaultParameters configuration env).1.scope =
        some ["profile", "email"]) ∧
    ((env.oauthHost = Option.none ∨ env.oauthHost = some "") →
      (PaxfulApi.validateAndSetDefaultParameters configuration env).2.oauthHost =
        some "https://accounts.paxful.com") ∧
    (∀ h : String, env.oauthHost = some h → h ≠ "" →
      (PaxfulApi.validateAndSetDefaultParameters configuration env).2.oauthHost =
        some h) ∧
    ((env.dataHost = Option.none ∨ env.dataHost = some "") →
      (PaxfulApi.validateAndSetDefaultParameters configuration env).2.dataHost =
        some "https://api.paxful.com") ∧
    (∀ h : String, env.dataHost = some h → h ≠ "" →
      (PaxfulApi.validateAndSetDefaultParameters configuration env).2.dataHost =
        some h) := by
  refine ⟨?_, ?_, ?_, ?_, ?_⟩
  · rintro (hs | hs) <;>
      simp [PaxfulApi.validateAndSetDefaultParameters, hs]
  · rintro (ho | ho) <;>
      simp [PaxfulApi.validateAndSetDefaultParameters, ho]
  · intro h ho hne
    simp [PaxfulApi.validateAndSetDefaultParameters, ho, hne]
  · rintro (hd | hd) <;>
      simp [PaxfulApi.validateAndSetDefaultParameters, hd]
  · intro h hd hne
    simp [PaxfulApi.validateAndSetDefaultParameters, hd, hne]

theorem constructor_defaults_witness :
    (PaxfulApi.validateAndSetDefaultParameters
        { clientId := "id", clientSecret := "secret", redirectUri := "uri",
          scope := some [] }
        { oauthHost := some "", dataHost := some "https://my.host" }).1.scope =
      some ["profile", "email"] ∧
    (PaxfulApi.validateAndSetDefaultParameters
        { clientId := "id", clientSecret := "secret", redirectUri := "uri",
          scope := some [] }
        { oauthHost := some "", dataHost := some "https://my.host" }).2.oauthHost =
      some "https://accounts.paxful.com" ∧
    (PaxfulApi.validateAndSetDefaultParameters
        { clientId := "id", clientSecret := "secret", redirectUri := "uri",
          scope := some [] }
        { oauthHost := some "", dataHost := some "https://my.host" }).2.dataHost =
      some "https://my.host" := by
  have h := constructor_defaults
    { clientId := "id", clientSecret := "secret", redirectUri := "uri",
      scope := some [] }
    { oauthHost := some "", dataHost := some "https://my.host" }
  exact ⟨h.1 (Or.inr rfl), h.2.1 (Or.inr rfl),
    h.2.2.2.2 "https://my.host" rfl (by decide)⟩

/-- C7: `get` builds a `GET` request with the given url parameters and
JSON response parsing and no body; `post`, `put`, `patch` and `delete`
build a request with their method, the optional payload as a JSON body
and JSON response parsing; `download` builds a body-less request with
binary response parsing.  All delegate to the authenticated executor
with exactly these request specs. -/
theorem verbs_build_advertised_requests (dataHost url : String)
    (params : InvokeBody) (json : Option JValue) (m : Method) :
    PaxfulApi.get dataHost url params =
      { url := dataHost ++ url, method := Method.GET,
        acceptKind := AcceptKind.json, bodyKind := BodyKind.none,
        body := Option.none, urlParams := params } ∧
    PaxfulApi.post dataHost url json =
      { url := dataHost ++ url, method := Method.POST,
        acceptKind := AcceptKind.json, bodyKind := BodyKind.json,
        body := json, urlParams := [] } ∧
    PaxfulApi.put dataHost url json =
      { url := dataHost ++ url, method := Method.PUT,
        acceptKind := AcceptKind.json, bodyKind := BodyKind.json,
        body := json, urlParams := [] } ∧
    PaxfulApi.patch dataHost url json =
      { url := dataHost ++ url, method := Method.PATCH,
        acceptKind := AcceptKind.json, bodyKind := BodyKind.json,
        body := json, urlParams := [] } ∧
    PaxfulApi.delete dataHost url json =
      { url := dataHost ++ url, method := Method.DELETE,
        acceptKind := AcceptKind.json, bodyKind := BodyKind.json,
        body := json, urlParams := [] } ∧
    PaxfulApi.download dataHost url m =
      { url := dataHost ++ url, method := m,
        acceptKind := AcceptKind.binary, bodyKind := BodyKind.none,
        body := Option.none, urlParams := [] } :=
  ⟨rfl, rfl, rfl, rfl, rfl, rfl⟩

/-- C8: for every url ending in `currency/btc` and every binary-free
payload, `invoke` dispatches with method `GET` where any other url gets
`POST`; the rest of the request (JSON response parsing, form-encoded
payload) is the same in both cases. -/
theorem invoke_btc_url_uses_get (dataHost url : String) (payload : InvokeBody)
    (hbtc : strEndsWith url "currency/btc" = true)
    (h : containsBinary payload = false) :
    (PaxfulApi.invoke dataHost url (some payload)).method = Method.GET ∧
    (∀ url2 : String, strEndsWith url2 "currency/btc" = false →
      (PaxfulApi.invoke dataHost url2 (some payload)).method = Method.POST) ∧
    (PaxfulApi.invoke dataHost url (some payload)).acceptKind =
      AcceptKind.json ∧
    (PaxfulApi.invoke dataHost url (some payload)).bodyKind = BodyKind.form ∧
    (PaxfulApi.invoke dataHost url (some payload)).body =
      some (JValue.obj payload) := by
  refine ⟨?_, ?_, ?_, ?_, ?_⟩ <;>
    try simp [PaxfulApi.invoke, h, hbtc, withFormData, withMethod,
      acceptJson, RequestBuilder.new]
  intro url2 hurl2
  simp [PaxfulApi.invoke, h, hurl2, withFormData, withMethod,
    acceptJson, RequestBuilder.new]

theorem invoke_btc_url_uses_get_witness :
    (PaxfulApi.invoke "https://api.paxful.com" "/paxful/v1/currency/btc"
        (some [("fiat", JValue.str "EUR")])).method = Method.GET ∧
    (PaxfulApi.invoke "https://api.paxful.com" "/paxful/v1/trade/list"
        (some [("fiat", JValue.str "EUR")])).method = Method.POST := by
  have h := invoke_btc_url_uses_get "https://api.paxful.com"
    "/paxful/v1/currency/btc" [("fiat", JValue.str "EUR")]
    (by decide) rfl
  exact ⟨h.1, h.2.1 "/paxful/v1/trade/list" (by decide)⟩

/-- C9: with no credential storage supplied at construction, `getProfile`
fails with the error message `No credentials storage defined.` and never
reaches the profile-retrieval command; with a storage supplied, it
delegates to that command with the storage and the configuration. -/
theorem getProfile_requires_storage (config : ApiConfiguration) :
    PaxfulApi.getProfile Option.none config =
      Except.error "No credentials storage defined." ∧
    (∀ s : CredentialStorage,
      PaxfulApi.getProfile (some s) config = Except.ok (s, config)) :=
  ⟨rfl, fun _ => rfl⟩

/-- C10: when token acquisition fails, the error propagates from
`impersonatedCredentials` / `myCredentials` and `saveCredentials` is
never invoked, so the credential storage is returned unchanged. -/
theorem acquisition_failure_saves_nothing
    (retrieveImpersonated : String → Except String Credentials)
    (retrievePersonal : Except String Credentials)
    (storage : Option CredentialStorage) (code : String) (e1 e2 : String)
    (h1 : retrieveImpersonated code = Except.error e1)
    (h2 : retrievePersonal = Except.error e2) :
    PaxfulApi.impersonatedCredentials retrieveImpersonated storage code =
      (storage, Except.error e1) ∧
    PaxfulApi.myCredentials retrievePersonal storage =
      (storage, Except.error e2) := by
  simp [PaxfulApi.impersonatedCredentials, PaxfulApi.myCredentials,
    PaxfulApi.saveToken, h1, h2]

theorem acquisition_failure_saves_nothing_witness :
    PaxfulApi.impersonatedCredentials (fun _ => Except.error "exchange failed")
      (some []) "badcode" = (some [], Except.error "exchange failed") ∧
    PaxfulApi.myCredentials (Except.error "exchange failed") (some []) =
      (some [], Except.error "exchange failed") :=
  acquisition_failure_saves_nothing (fun _ => Except.error "exchange failed")
    (Except.error "exchange failed") (some []) "badcode"
    "exchange failed" "exchange failed" rfl rfl

end PaxfulSdk
